import Mathlib

/-!
Verification of the serverless deployment tool (create command, set-version
command, S3 event-source command, express proxy generator) against its
design document. The JavaScript sources are shallowly embedded: option
values that may be absent become `Option String`, JavaScript truthiness is
made explicit, promise chains become sequenced `Except` computations, and
remote side effects are recorded in explicit traces.
-/

namespace Deploy

/-- JavaScript truthiness of a possibly-absent string value: `undefined`
and the empty string are falsy, every other string is truthy. -/
def truthyS : Option String → Bool
  | none => false
  | some s => s != ""

/-- Extract the string from a possibly-absent value (callers only use it
under a truthiness guard, mirroring the JavaScript code). -/
def getS : Option String → String
  | none => ""
  | some s => s

/- ### S3 event-source command (addS3EventSource) -/

/-- One entry of `Filter.Key.FilterRules` in a bucket notification rule,
as built by `addBucketNotificationConfig`. -/
structure FilterRule where
  Name : String
  Value : String
deriving DecidableEq, Repr

/-- One Lambda-function subscription entry of a bucket notification
configuration (`eventConfig` in `addBucketNotificationConfig`): target
function ARN, event type list, and the optional `Filter.Key.FilterRules`
structure, `none` when the `Filter` property is omitted from the object. -/
structure EventConfig where
  LambdaFunctionArn : String
  Events : List String
  Filter : Option (List FilterRule)
deriving DecidableEq, Repr

/-- A bucket notification configuration as returned by
`getBucketNotificationConfiguration`: the Lambda subscription list plus
the other subscription lists (topic and queue), which the command never
touches; each field is `none` when absent from the object. -/
structure NotificationConfig where
  LambdaFunctionConfigurations : Option (List EventConfig)
  TopicConfigurations : Option (List String)
  QueueConfigurations : Option (List String)
deriving DecidableEq, Repr

/-- The empty object `{}` that `addBucketNotificationConfig` substitutes
for a falsy `currentConfig`. -/
def emptyNotificationConfig : NotificationConfig :=
  { LambdaFunctionConfigurations := none
    TopicConfigurations := none
    QueueConfigurations := none }

/-- The `eventConfig` object built at the top of
`addBucketNotificationConfig` from the function ARN and the `events`,
`prefix` and `suffix` options: events default to `s3:ObjectCreated:*`,
each supplied filter option contributes one filter rule, and the `Filter`
property is only set when the filter-rule list is non-empty. -/
def buildEventConfig (arn : String) (evs pfx sfx : Option String) : EventConfig :=
  let events := if truthyS evs then (getS evs).splitOn "," else ["s3:ObjectCreated:*"]
  let filterRules :=
    (if truthyS pfx then [FilterRule.mk "prefix" (getS pfx)] else []) ++
    (if truthyS sfx then [FilterRule.mk "suffix" (getS sfx)] else [])
  { LambdaFunctionArn := arn
    Events := events
    Filter := if filterRules.isEmpty then none else some filterRules }

/-- The merge step of `addBucketNotificationConfig`: take the fetched
configuration (or `{}` when absent), initialise the Lambda subscription
list to `[]` when missing, and push the new rule onto its end. -/
def mergeNotificationConfig (currentConfig : Option NotificationConfig)
    (eventConfig : EventConfig) : NotificationConfig :=
  let merged := currentConfig.getD emptyNotificationConfig
  let merged :=
    if merged.LambdaFunctionConfigurations.isNone then
      { merged with LambdaFunctionConfigurations := some [] }
    else merged
  { merged with
      LambdaFunctionConfigurations :=
        some (merged.LambdaFunctionConfigurations.getD [] ++ [eventConfig]) }

/-- Remote interactions of the S3 event-source command, at the level of
what is actually sent and awaited.  `addPermissionRequest` records that
`lambda.addPermission(params)` was called without `.promise()`: the
AWS request object is constructed but never sent, and the promise chain
does not wait on it.  `addPermissionCompleted` would record a sent and
awaited permission call; the code never produces it. -/
inductive S3Call
  | getFunctionConfiguration
  | putRolePolicy
  | addPermissionRequest
  | addPermissionCompleted
  | getBucketNotificationConfiguration
  | putBucketNotificationConfiguration
deriving DecidableEq, Repr

/-- Remote trace of `readConfig`: load the local config (no remote call),
then `lambda.getFunctionConfiguration(...).promise()`. -/
def readConfigCalls : List S3Call := [S3Call.getFunctionConfiguration]

/-- Remote trace of `addS3AccessPolicy`: `iam.putRolePolicy(...).promise()`. -/
def addS3AccessPolicyCalls : List S3Call := [S3Call.putRolePolicy]

/-- Remote trace of `addInvokePermission`: the source returns
`lambda.addPermission(params)` with no `.promise()` (unlike every other
AWS call in the file), so only an unsent request object is produced and
nothing is awaited. -/
def addInvokePermissionCalls : List S3Call := [S3Call.addPermissionRequest]

/-- Remote trace of `addBucketNotificationConfig`: fetch the current
configuration, then write the merged configuration. -/
def addBucketNotificationConfigCalls : List S3Call :=
  [S3Call.getBucketNotificationConfiguration, S3Call.putBucketNotificationConfiguration]

/-- The `addS3EventSource` command: reject when no bucket is given,
otherwise run `readConfig`, `addS3AccessPolicy`, `addInvokePermission`
and `addBucketNotificationConfig` in promise-chain order, producing the
sequence of remote interactions. -/
def addS3EventSourceCalls (bucket : Option String) : Except String (List S3Call) :=
  if !truthyS bucket then
    Except.error "没有指定 bucket 桶的名称，请使用 --bucket 指定"
  else
    Except.ok (readConfigCalls ++ addS3AccessPolicyCalls ++
      addInvokePermissionCalls ++ addBucketNotificationConfigCalls)

/- ### Retry engine and the createLambda retry predicate -/

/-- A provider error as observed by the retry predicates: the stable
classification code carried on the error object. -/
structure AwsError where
  code : String
deriving DecidableEq, Repr

/-- The error-classification predicate passed by `createLambda` to the
retry wrapper: `error => error && error.code === 'InvalidParameterValueException'`.
A rejection value may be absent (null/undefined), which is falsy. -/
def createLambdaRetryPred : Option AwsError → Bool
  | some e => e.code == "InvalidParameterValueException"
  | none => false

/-- Modelled from the spec: the Retry Engine (§4.1), supplied by the
external `oh-no-i-insist` package, which is not part of this repository's
sources.  `retryGo op pred fuel attempt` invokes `op` at the current
attempt index; success returns immediately; a failure classified
non-retryable propagates unchanged; a retryable failure re-invokes `op`
while attempts remain and propagates the last error once the attempt cap
is exhausted.  The second component of the result counts how many times
`op` was invoked. -/
def retryGo {E A : Type} (op : Nat → Except E A) (pred : E → Bool) :
    Nat → Nat → Except E A × Nat
  | 0, attempt =>
    match op attempt with
    | Except.ok a => (Except.ok a, attempt + 1)
    | Except.error err => (Except.error err, attempt + 1)
  | f + 1, attempt =>
    match op attempt with
    | Except.ok a => (Except.ok a, attempt + 1)
    | Except.error err =>
      if pred err then retryGo op pred f (attempt + 1)
      else (Except.error err, attempt + 1)

/-- Modelled from the spec: the retry entry point
`retry(operation, delayMs, maxAttempts, isRetryable, onRetry, Promise)`.
The fixed delay only affects timing, never the resulting value, so it is
carried but unused.  Attempts are capped at `maxAttempts`. -/
def retry {E A : Type} (op : Nat → Except E A) (delayMs : Int)
    (maxAttempts : Nat) (pred : E → Bool) : Except E A × Nat :=
  let _ := delayMs
  retryGo op pred (maxAttempts - 1) 0

/-- The `createLambda` step of the create command: the
`lambda.createFunction` call wrapped in the retry engine with the
role-propagation predicate, the configured delay and the configured
attempt cap. -/
def createLambdaRun {A : Type} (op : Nat → Except (Option AwsError) A)
    (awsDelayMs : Int) (awsRetries : Nat) : Except (Option AwsError) A × Nat :=
  retry op awsDelayMs awsRetries createLambdaRetryPred

/- ### Alias binding (markAliases) -/

/-- The fields of the `createFunction` result that `markAliases` reads:
the function name and the version published by that creation call. -/
structure LambdaData where
  FunctionName : String
  Version : String
deriving DecidableEq, Repr

/-- One invocation of the mark-alias utility:
`markAlias(functionName, lambda, version, aliasName)` binds the label
`aliasName` to the version reference `version`. -/
structure AliasBinding where
  functionName : String
  aliasName : String
  version : String
deriving DecidableEq, Repr

/-- The bindings issued by `markAliases`: always
`markAlias(name, lambda, '$LATEST', 'latest')` first, then, only when the
`version` option is truthy, `markAlias(name, lambda, lambdaData.Version,
options.version)`. -/
def markAliasesBindings (lambdaData : LambdaData) (optVersion : Option String) :
    List AliasBinding :=
  AliasBinding.mk lambdaData.FunctionName "latest" "$LATEST" ::
    (if truthyS optVersion then
      [AliasBinding.mk lambdaData.FunctionName (getS optVersion) lambdaData.Version]
    else [])

/-- Modelled from the spec: the mark-alias utility (`util/mark-alias`, not
included under src/) has upsert semantics — create the alias if absent,
else repoint it at the new version (§3 Alias, §4.5).  A function's alias
store is modelled as a map from label to target version. -/
def upsertAlias (store : String → Option String) (aliasName version : String) :
    String → Option String :=
  fun l => if l = aliasName then some version else store l

/-- Apply a sequence of alias bindings to an alias store, in order. -/
def applyBindings (store : String → Option String) (bs : List AliasBinding) :
    String → Option String :=
  bs.foldl (fun st b => upsertAlias st b.aliasName b.version) store

/- ### Persisted descriptor (saveConfig) and returned result (formatResult) -/

/-- The `lambda` section common to the persisted descriptor and the
returned result: role name, function name, region, and whether the
`sharedRole: true` marker is present (it is added exactly when the
`role` option was supplied). -/
structure PersistedLambdaSection where
  role : String
  name : String
  region : String
  sharedRole : Bool
deriving DecidableEq, Repr

/-- The gateway metadata accumulated on `lambdaMetadata.api` by
`createWebApi`: rest api id, the api module name, and the invocation URL. -/
structure LambdaApiInfo where
  id : String
  apiModule : String
  url : String
deriving DecidableEq, Repr

/-- The gateway section of the persisted descriptor: only the id and the
module name are persisted (`config.api = { id, module }`). -/
structure PersistedApiSection where
  id : String
  apiModule : String
deriving DecidableEq, Repr

/-- The JSON object written to the config file by `saveConfig`; `none`
in an optional field means the property is absent from the object. -/
structure PersistedConfig where
  lambda : PersistedLambdaSection
  api : Option PersistedApiSection
  s3key : Option String
deriving DecidableEq, Repr

/-- The result object returned by the create command (`formatResult`):
same lambda section, the full gateway metadata, and the `s3key` property
when an object-store key was produced. -/
structure ResultConfig where
  lambda : PersistedLambdaSection
  api : Option LambdaApiInfo
  s3key : Option String
deriving DecidableEq, Repr

/-- The inputs both `saveConfig` and `formatResult` read from the
pipeline closure: the role name from `roleMetadata`, the region and
`role` options, the function name and gateway metadata from
`lambdaMetadata`, and the `s3Key` recorded after the artifact upload. -/
structure ConfigInputs where
  roleName : String
  region : Option String
  optRole : Option String
  functionName : String
  api : Option LambdaApiInfo
  s3Key : Option String
deriving Repr

/-- The object `saveConfig` writes to the config file: the lambda section,
`sharedRole: true` when the `role` option was given, and `api: {id,
module}` when gateway metadata exists.  No other property is written — in
particular the `s3Key` in scope is never added. -/
def saveConfigContent (i : ConfigInputs) : PersistedConfig :=
  { lambda :=
      { role := i.roleName
        name := i.functionName
        region := getS i.region
        sharedRole := truthyS i.optRole }
    api := i.api.map (fun a => PersistedApiSection.mk a.id a.apiModule)
    s3key := none }

/-- The object `formatResult` returns to the caller: same lambda section,
the full `lambdaMetadata.api`, and `s3key` when `s3Key` is truthy. -/
def formatResult (i : ConfigInputs) : ResultConfig :=
  { lambda :=
      { role := i.roleName
        name := i.functionName
        region := getS i.region
        sharedRole := truthyS i.optRole }
    api := i.api
    s3key := if truthyS i.s3Key then i.s3Key else none }

/- ### Numeric option handling (aws-delay / aws-retries) -/

/-- Whitespace skipped by `parseInt` before reading digits. -/
def isJsSpace (c : Char) : Bool :=
  c == ' ' || c == '\t' || c == '\n' || c == '\r'

/-- Accumulate the value of a list of decimal digit characters. -/
def digitsToNat (ds : List Char) : Nat :=
  ds.foldl (fun a c => a * 10 + (c.toNat - 48)) 0

/-- JavaScript `parseInt(s, 10)`: skip leading whitespace, read an
optional sign and then the maximal run of leading decimal digits,
ignoring everything after them; `none` models `NaN` (no digits found). -/
def jsParseInt10 (s : String) : Option Int :=
  let cs := s.toList.dropWhile isJsSpace
  let signAndRest : Int × List Char :=
    match cs with
    | '-' :: r => (-1, r)
    | '+' :: r => (1, r)
    | r => (1, r)
  let ds := signAndRest.2.takeWhile Char.isDigit
  if ds.isEmpty then none else some (signAndRest.1 * (digitsToNat ds : Int))

/-- Value of the JavaScript expression `v && parseInt(v, 10)` for a
possibly-absent option string: a falsy operand (absent or empty) short
circuits, otherwise the parse result stands, with `none` for `NaN`. -/
def jsOptionNum (o : Option String) : Option Int :=
  match o with
  | none => none
  | some s => if s = "" then none else jsParseInt10 s

/-- Value of `a || d` where `a` is a number-or-falsy operand: `NaN`
(`none`) and `0` fall through to the default. -/
def jsOrNum : Option Int → Int → Int
  | some n, d => if n = 0 then d else n
  | none, d => d

/-- The `awsDelay` constant of the create command:
`options['aws-delay'] && parseInt(...) || (process.env.AWS_DELAY &&
parseInt(...)) || 5000`. -/
def awsDelay (optDelay envDelay : Option String) : Int :=
  jsOrNum (jsOptionNum optDelay) (jsOrNum (jsOptionNum envDelay) 5000)

/-- The `awsRetries` constant of the create command:
`options['aws-retries'] && parseInt(...) || 5`. -/
def awsRetries (optRetries : Option String) : Int :=
  jsOrNum (jsOptionNum optRetries) 5

/-- The condition named by the claim about default retry parameters: the
option value is absent, the literal string `0`, or not parseable as a
number (`parseInt` yields `NaN`). -/
def unusableNumOption (o : Option String) : Prop :=
  o = none ∨ o = some "0" ∨ ∃ s, o = some s ∧ jsParseInt10 s = none

/- ### The create command: options, validation, and the pipeline -/

/-- The option fields of the create command that the validation and the
pipeline branch on.  String-valued options are `Option String` (absent
versus supplied); numeric options are `Option Int`; pure flags are
`Bool`. -/
structure CreateOptions where
  region : Option String
  handler : Option String
  apiModule : Option String
  deployProxyApi : Bool
  name : Option String
  version : Option String
  config : Option String
  policies : Option String
  role : Option String
  memory : Option Int
  timeout : Option Int
  allowRecursion : Bool
  s3Key : Option String
  useS3Bucket : Option String
  keep : Bool
deriving DecidableEq, Repr

/-- Results of the local-filesystem and role-shape probes consulted by
`validationError` and `loadRole`: whether the config file's directory
exists, whether the config file already exists, whether `package.json`
exists in the source directory, whether the `policies` pattern matched no
files, and whether `judgeRole.isRoleArn(options.role)` holds (that
utility is not included under src/, so its verdict is an input here). -/
structure FsEnv where
  configDirIsDir : Bool
  configFileExists : Bool
  packageJsonExists : Bool
  policyFilesEmpty : Bool
  roleIsArn : Bool
deriving DecidableEq, Repr

/-- The config-file path: `options.config || path.join(source, 'sln.json')`
(the source-directory part of the join is abstracted away). -/
def configFilePath (o : CreateOptions) : String :=
  if truthyS o.config then getS o.config else "sln.json"

/-- The `validationError` function of the create command: the first
matching check produces its message, later checks are not reached; `none`
means validation passes. -/
def validationError (o : CreateOptions) (fs : FsEnv) : Option String :=
  if !truthyS o.region then
    some "AWS region 参数未定义，请使用 --region 定义该参数值\n"
  else if !truthyS o.handler && !truthyS o.apiModule then
    some "Lambda handler 参数未定义，请使用 --handler 定义该参数值\n"
  else if truthyS o.handler && truthyS o.apiModule then
    some "不能同时使用 handler 和 api-module 两个参数\n"
  else if !truthyS o.handler && o.deployProxyApi then
    some "deploy-proxy-api 需要一个 handler，请使用 --handler 定义该参数值\n"
  else if truthyS o.handler && !((getS o.handler).toList.contains '.') then
    some "未指定 Lambda 处理函数，请使用 --handler 指定函数\n"
  else if truthyS o.apiModule && (getS o.apiModule).toList.contains '.' then
    some "Api module 模块名不能和已存在的文件名或函数名重名\n"
  else if !fs.configDirIsDir then
    some ("无法将内容写入 " ++ configFilePath o ++ "\n")
  else if fs.configFileExists then
    (if truthyS o.config then some (getS o.config ++ " + 已存在\n")
     else some "sln.json 已经在项目文件夹下")
  else if !fs.packageJsonExists then
    some "项目目录下不存在 package.json 文件\n"
  else if truthyS o.policies && fs.policyFilesEmpty then
    some ("没有文件匹配 " ++ getS o.policies ++ "\n")
  else if o.memory.isSome && o.memory.getD 0 < 128 then
    some "提供的内存值必须大于或等于 Lambda 限制的最小内存值"
  else if o.memory.isSome && o.memory.getD 0 > 3008 then
    some "提供的内存值必须小于或等于 Lambda 限制的最大内存值"
  else if o.memory.isSome && o.memory.getD 0 % 64 != 0 then
    some "提供的内存值必须是64的整数倍"
  else if o.timeout.isSome && o.timeout.getD 0 < 1 then
    some "超时时间必须大于1"
  else if o.timeout.isSome && o.timeout.getD 0 > 9000 then
    some "超时时间必须小于900"
  else if o.allowRecursion && truthyS o.role && fs.roleIsArn then
    some "参数 allow-recursion 和 role 冲突\n"
  else if truthyS o.s3Key && !truthyS o.useS3Bucket then
    some "--s3-key 需要和 --use-s3-bucket 一起使用\n"
  else
    none

/-- The steps of the create promise chain after validation, in source
order. -/
inductive Step
  | initEnvVars
  | getPackageInfo
  | getOwnerInfo
  | mkdtemp
  | collectFiles
  | validatePackage
  | cleanUpPackage
  | zipdir
  | loadRole
  | putLoggingPolicy
  | addExtraPolicies
  | uploadCode
  | createFunction
  | markAliases
  | exposeApi
  | saveConfig
deriving DecidableEq, Repr

/-- Which fallible steps succeed in a given run: the oracle standing for
the outcomes of the underlying local and remote operations. -/
structure StepOutcomes where
  initEnvVarsOk : Bool
  getPackageInfoOk : Bool
  getOwnerInfoOk : Bool
  mkdtempOk : Bool
  collectFilesOk : Bool
  validatePackageOk : Bool
  cleanUpPackageOk : Bool
  zipdirOk : Bool
  loadRoleOk : Bool
  putLoggingPolicyOk : Bool
  addExtraPoliciesOk : Bool
  uploadCodeOk : Bool
  createFunctionOk : Bool
  markAliasesOk : Bool
  exposeApiOk : Bool
  saveConfigOk : Bool
deriving DecidableEq, Repr

/-- Observable footprint of a run: which remote control-plane calls were
issued (in order), whether the temporary staging directory was created,
whether the `cleanup` step executed, whether it removed the staging
directory and archive, and whether the archive was retained and reported. -/
structure RunTrace where
  remoteCalls : List String
  stagingDirCreated : Bool
  cleanupRan : Bool
  stagingRemoved : Bool
  archiveKept : Bool
deriving DecidableEq, Repr

/-- The trace before anything has happened. -/
def emptyTrace : RunTrace :=
  { remoteCalls := []
    stagingDirCreated := false
    cleanupRan := false
    stagingRemoved := false
    archiveKept := false }

/-- Whether a step is attempted at all and which remote calls it issues
when attempted, per the source: `loadRole` resolves locally for an ARN
role, calls `iam.getRole` for a named role and `iam.createRole`
otherwise; the logging policy is attached only for a freshly created
role; extra policies only when `policies` was given; the artifact goes
through the object store only when `use-s3-bucket` was given (the
`lambdaCode` utility is not under src/; its remote footprint follows the
spec); `markAliases` issues one or two alias upserts; the gateway branch
follows `api-module` / `deploy-proxy-api`.  A step whose conditional
branch is not taken performs nothing and cannot fail. -/
def stepRun (o : CreateOptions) (fs : FsEnv) (env : StepOutcomes) :
    Step → Bool × List String
  | Step.initEnvVars => (env.initEnvVarsOk, [])
  | Step.getPackageInfo => (env.getPackageInfoOk, [])
  | Step.getOwnerInfo => (env.getOwnerInfoOk, ["getOwnerInfo"])
  | Step.mkdtemp => (env.mkdtempOk, [])
  | Step.collectFiles => (env.collectFilesOk, [])
  | Step.validatePackage => (env.validatePackageOk, [])
  | Step.cleanUpPackage => (env.cleanUpPackageOk, [])
  | Step.zipdir => (env.zipdirOk, [])
  | Step.loadRole =>
    if truthyS o.role then
      (if fs.roleIsArn then (true, []) else (env.loadRoleOk, ["iam.getRole"]))
    else (env.loadRoleOk, ["iam.createRole"])
  | Step.putLoggingPolicy =>
    if truthyS o.role then (true, []) else (env.putLoggingPolicyOk, ["iam.putRolePolicy"])
  | Step.addExtraPolicies =>
    if truthyS o.policies then (env.addExtraPoliciesOk, ["iam.putRolePolicy"])
    else (true, [])
  | Step.uploadCode =>
    if truthyS o.useS3Bucket then (env.uploadCodeOk, ["s3.upload"])
    else (env.uploadCodeOk, [])
  | Step.createFunction => (env.createFunctionOk, ["lambda.createFunction"])
  | Step.markAliases =>
    (env.markAliasesOk,
      "lambda.upsertAlias" :: (if truthyS o.version then ["lambda.upsertAlias"] else []))
  | Step.exposeApi =>
    if truthyS o.apiModule then (env.exposeApiOk, ["apigateway.createRestApi"])
    else if o.deployProxyApi then (env.exposeApiOk, ["apigateway.deployProxyApi"])
    else (true, [])
  | Step.saveConfig => (env.saveConfigOk, [])

/-- A human-readable stand-in for the rejection value of a failing step. -/
def stepFailMsg : Step → String
  | Step.initEnvVars => "initEnvVarsFromOptions rejected"
  | Step.getPackageInfo => "getPackageInfo rejected"
  | Step.getOwnerInfo => "getOwnerInfo rejected"
  | Step.mkdtemp => "mkdtemp rejected"
  | Step.collectFiles => "collectFiles rejected"
  | Step.validatePackage => "validatePackage rejected"
  | Step.cleanUpPackage => "cleanUpPackage rejected"
  | Step.zipdir => "zipdir rejected"
  | Step.loadRole => "loadRole rejected"
  | Step.putLoggingPolicy => "putRolePolicy rejected"
  | Step.addExtraPolicies => "addExtraPolicies rejected"
  | Step.uploadCode => "lambdaCode rejected"
  | Step.createFunction => "createFunction rejected"
  | Step.markAliases => "markAliases rejected"
  | Step.exposeApi => "createWebApi rejected"
  | Step.saveConfig => "saveConfig rejected"

/-- Record a completed step in the trace: append its remote calls; the
`mkdtemp` step additionally creates the staging directory. -/
def applyStep (t : RunTrace) (s : Step) (calls : List String) : RunTrace :=
  { t with
      remoteCalls := t.remoteCalls ++ calls
      stagingDirCreated := t.stagingDirCreated || s == Step.mkdtemp }

/-- The `cleanup` function at the end of the chain: when `keep` was not
requested it removes the staging directory and deletes the archive,
otherwise it reports the archive location on the result. -/
def cleanupStep (o : CreateOptions) (t : RunTrace) : RunTrace :=
  if o.keep then { t with cleanupRan := true, archiveKept := true }
  else { t with cleanupRan := true, stagingRemoved := true }

/-- Run the remaining steps of the promise chain: a fulfilled step leads
to the next one, a rejected step rejects the whole chain with that
step's reason and no later `.then` callback runs — in particular
`cleanup`, which is reached only after the last step fulfills. -/
def runPipeline (o : CreateOptions) (fs : FsEnv) (env : StepOutcomes) :
    List Step → RunTrace → Except String Unit × RunTrace
  | [], t => (Except.ok (), cleanupStep o t)
  | s :: rest, t =>
    if (stepRun o fs env s).1 then
      runPipeline o fs env rest (applyStep t s (stepRun o fs env s).2)
    else (Except.error (stepFailMsg s), t)

/-- The steps of the create chain in the order the source sequences them. -/
def pipelineSteps : List Step :=
  [Step.initEnvVars, Step.getPackageInfo, Step.getOwnerInfo, Step.mkdtemp,
   Step.collectFiles, Step.validatePackage, Step.cleanUpPackage, Step.zipdir,
   Step.loadRole, Step.putLoggingPolicy, Step.addExtraPolicies, Step.uploadCode,
   Step.createFunction, Step.markAliases, Step.exposeApi, Step.saveConfig]

/-- The create command: reject with the validation message before any
other work when validation fails, otherwise run the promise chain. -/
def create (o : CreateOptions) (fs : FsEnv) (env : StepOutcomes) :
    Except String Unit × RunTrace :=
  match validationError o fs with
  | some m => (Except.error m, emptyTrace)
  | none => runPipeline o fs env pipelineSteps emptyTrace

/-- Whether an `Except` outcome is a fulfillment. -/
def isOkE {ε α : Type} : Except ε α → Bool
  | Except.ok _ => true
  | Except.error _ => false

/- ### Theorems -/

/-- C3: the merge step of the S3 event-source command appends the new
rule to the existing configuration's Lambda subscription list, leaving
prior entries unchanged and in order and the other subscription lists
untouched; a missing list and a wholly absent configuration both yield
the singleton list. -/
theorem c3_merge_appends :
    (∀ (c : NotificationConfig) (l : List EventConfig) (rule : EventConfig),
      c.LambdaFunctionConfigurations = some l →
        (mergeNotificationConfig (some c) rule).LambdaFunctionConfigurations =
            some (l ++ [rule]) ∧
        (mergeNotificationConfig (some c) rule).TopicConfigurations =
            c.TopicConfigurations ∧
        (mergeNotificationConfig (some c) rule).QueueConfigurations =
            c.QueueConfigurations) ∧
    (∀ (c : NotificationConfig) (rule : EventConfig),
      c.LambdaFunctionConfigurations = none →
        (mergeNotificationConfig (some c) rule).LambdaFunctionConfigurations =
          some [rule]) ∧
    (∀ rule : EventConfig,
      (mergeNotificationConfig none rule).LambdaFunctionConfigurations =
        some [rule]) := by
  refine ⟨?_, ?_, ?_⟩
  · intro c l rule h
    refine ⟨?_, ?_, ?_⟩ <;> simp [mergeNotificationConfig, h]
  · intro c rule h
    simp [mergeNotificationConfig, h]
  · intro rule
    simp [mergeNotificationConfig, emptyNotificationConfig]

/-- Witness for C3 at a concrete configuration holding one prior rule
and a topic subscription. -/
theorem c3_merge_appends_witness :
    (mergeNotificationConfig
        (some (NotificationConfig.mk
          (some [EventConfig.mk "arn:aws:lambda:us-east-1:1:function:other" ["s3:ObjectRemoved:*"] none])
          (some ["topic-sub"]) none))
        (EventConfig.mk "arn:aws:lambda:us-east-1:1:function:my-fn" ["s3:ObjectCreated:*"] none)).LambdaFunctionConfigurations =
      some [EventConfig.mk "arn:aws:lambda:us-east-1:1:function:other" ["s3:ObjectRemoved:*"] none,
        EventConfig.mk "arn:aws:lambda:us-east-1:1:function:my-fn" ["s3:ObjectCreated:*"] none] ∧
    (mergeNotificationConfig
        (some (NotificationConfig.mk
          (some [EventConfig.mk "arn:aws:lambda:us-east-1:1:function:other" ["s3:ObjectRemoved:*"] none])
          (some ["topic-sub"]) none))
        (EventConfig.mk "arn:aws:lambda:us-east-1:1:function:my-fn" ["s3:ObjectCreated:*"] none)).TopicConfigurations =
      some ["topic-sub"] := by
  have h := c3_merge_appends
  exact ⟨(h.1 _ _ _ rfl).1, (h.1 _ _ _ rfl).2.1⟩

/-- C7: the new notification rule carries a `Filter` structure exactly
when a prefix or suffix option was supplied; with neither option the
`Filter` property is omitted (`none`), never an empty rule list; each
supplied option contributes exactly one corresponding filter rule. -/
theorem c7_filter_rules (arn : String) (evs pfx sfx : Option String) :
    ((buildEventConfig arn evs pfx sfx).Filter = none ↔
      (truthyS pfx = false ∧ truthyS sfx = false)) ∧
    (truthyS pfx = true → truthyS sfx = false →
      (buildEventConfig arn evs pfx sfx).Filter =
        some [FilterRule.mk "prefix" (getS pfx)]) ∧
    (truthyS pfx = false → truthyS sfx = true →
      (buildEventConfig arn evs pfx sfx).Filter =
        some [FilterRule.mk "suffix" (getS sfx)]) ∧
    (truthyS pfx = true → truthyS sfx = true →
      (buildEventConfig arn evs pfx sfx).Filter =
        some [FilterRule.mk "prefix" (getS pfx), FilterRule.mk "suffix" (getS sfx)]) := by
  cases hp : truthyS pfx <;> cases hs : truthyS sfx <;>
    simp [buildEventConfig, hp, hs]

/-- Witness for C7: a prefix-only invocation yields exactly one prefix
filter rule, and an invocation with neither option yields no `Filter`. -/
theorem c7_filter_rules_witness :
    (buildEventConfig "arn:f" none (some "infiles/") none).Filter =
      some [FilterRule.mk "prefix" "infiles/"] ∧
    (buildEventConfig "arn:f" none none none).Filter = none := by
  refine ⟨(c7_filter_rules "arn:f" none (some "infiles/") none).2.1 rfl rfl, ?_⟩
  exact ((c7_filter_rules "arn:f" none none none).1).2 ⟨rfl, rfl⟩

/-- C8: evaluating the S3 event-source command on a concrete bucket shows
that the invoke-permission call is never completed before the
notification-configuration write: `addInvokePermission` returns
`lambda.addPermission(params)` without `.promise()`, so only an unsent
request object is produced, and the fetch-merge-write proceeds without
any completed permission call in the trace. -/
theorem c8_permission_never_awaited :
    addS3EventSourceCalls (some "my-bucket") =
      Except.ok [S3Call.getFunctionConfiguration, S3Call.putRolePolicy,
        S3Call.addPermissionRequest, S3Call.getBucketNotificationConfiguration,
        S3Call.putBucketNotificationConfiguration] ∧
    S3Call.addPermissionCompleted ∉
      [S3Call.getFunctionConfiguration, S3Call.putRolePolicy,
        S3Call.addPermissionRequest, S3Call.getBucketNotificationConfiguration,
        S3Call.putBucketNotificationConfiguration] := by
  exact ⟨rfl, by decide⟩

/-- C5: on a successful creation, `markAliases` always issues the binding
of the label `latest` to the `$LATEST` reference, issues a binding of the
user label to the version published in the same run exactly when the
`version` option was requested, and each binding is an upsert: after
applying it the label points at the new target while every other label is
untouched.  When the user label differs from `latest`, the state after
the step maps `latest` to `$LATEST` and the user label to the published
version. -/
theorem c5_mark_aliases (d : LambdaData) (v : Option String)
    (store : String → Option String) :
    (AliasBinding.mk d.FunctionName "latest" "$LATEST" ∈ markAliasesBindings d v) ∧
    (truthyS v = true →
      AliasBinding.mk d.FunctionName (getS v) d.Version ∈ markAliasesBindings d v) ∧
    (truthyS v = false →
      markAliasesBindings d v = [AliasBinding.mk d.FunctionName "latest" "$LATEST"]) ∧
    (∀ lbl tgt, upsertAlias store lbl tgt lbl = some tgt) ∧
    (∀ lbl tgt lbl', lbl' ≠ lbl → upsertAlias store lbl tgt lbl' = store lbl') ∧
    (truthyS v = true → getS v ≠ "latest" →
      applyBindings store (markAliasesBindings d v) "latest" = some "$LATEST" ∧
      applyBindings store (markAliasesBindings d v) (getS v) = some d.Version) := by
  refine ⟨?_, ?_, ?_, ?_, ?_, ?_⟩
  · simp [markAliasesBindings]
  · intro hv; simp [markAliasesBindings, hv]
  · intro hv; simp [markAliasesBindings, hv]
  · intro lbl tgt; simp [upsertAlias]
  · intro lbl tgt lbl' h; simp [upsertAlias, h]
  · intro hv hne
    constructor
    · simp [applyBindings, markAliasesBindings, hv, upsertAlias, Ne.symm hne]
    · simp [applyBindings, markAliasesBindings, hv, upsertAlias]

/-- Witness for C5 on a concrete run: function `my-fn`, published version
`1`, requested label `dev`, empty initial alias store. -/
theorem c5_mark_aliases_witness :
    applyBindings (fun _ => none)
        (markAliasesBindings (LambdaData.mk "my-fn" "1") (some "dev")) "latest" =
      some "$LATEST" ∧
    applyBindings (fun _ => none)
        (markAliasesBindings (LambdaData.mk "my-fn" "1") (some "dev")) "dev" =
      some "1" ∧
    AliasBinding.mk "my-fn" "dev" "1" ∈
      markAliasesBindings (LambdaData.mk "my-fn" "1") (some "dev") := by
  have h := c5_mark_aliases (LambdaData.mk "my-fn" "1") (some "dev") (fun _ => none)
  have h6 := h.2.2.2.2.2 rfl (by decide)
  exact ⟨h6.1, h6.2, h.2.1 rfl⟩

/-- C6 counterexample: on the concrete run of `markAliases` for function
`my-fn` with published version `1` and requested label `dev`, two
bindings are issued, but they target the distinct version references
`$LATEST` and `1` — refuting the claim that the two bindings of one run
always target the same version. -/
theorem c6_counterexample :
    (markAliasesBindings (LambdaData.mk "my-fn" "1") (some "dev")).map
        AliasBinding.version = ["$LATEST", "1"] ∧
    (markAliasesBindings (LambdaData.mk "my-fn" "1") (some "dev")).length = 2 ∧
    ("$LATEST" : String) ≠ "1" := by
  refine ⟨rfl, rfl, by decide⟩

/-- C6 amended: whenever a run issues two alias bindings, the first
targets the `$LATEST` reference and the second targets the version
published in that run — two different version references whenever the
published version is a concrete version number. -/
theorem c6_amended_two_targets (d : LambdaData) (v : Option String)
    (hv : truthyS v = true) :
    (markAliasesBindings d v).map AliasBinding.version = ["$LATEST", d.Version] ∧
    (markAliasesBindings d v).length = 2 := by
  simp [markAliasesBindings, hv]

/-- Witness for the amended C6 at the concrete run used in the
counterexample. -/
theorem c6_amended_two_targets_witness :
    (markAliasesBindings (LambdaData.mk "my-fn" "1") (some "dev")).map
        AliasBinding.version = ["$LATEST", "1"] ∧
    (markAliasesBindings (LambdaData.mk "my-fn" "1") (some "dev")).length = 2 :=
  c6_amended_two_targets (LambdaData.mk "my-fn" "1") (some "dev") rfl

/-- C9 counterexample: a first successful deployment that produced the
storage key `uploads/my-fn.zip` persists a descriptor whose `s3key`
property is absent; the key appears only on the result object returned to
the caller — refuting the claim that the persisted descriptor contains
the storage key. -/
theorem c9_counterexample :
    (saveConfigContent (ConfigInputs.mk "my-fn-role" (some "us-east-1") none
        "my-fn" none (some "uploads/my-fn.zip"))).s3key = none ∧
    (formatResult (ConfigInputs.mk "my-fn-role" (some "us-east-1") none
        "my-fn" none (some "uploads/my-fn.zip"))).s3key =
      some "uploads/my-fn.zip" := by
  exact ⟨rfl, by decide⟩

/-- C9 amended: the persisted descriptor contains the function fields
(name, role, region, shared-role marker) and, when a gateway was created,
its id and module reference — agreeing with the returned result on those
fields — but never the storage key; the storage key is reported only on
the returned result object. -/
theorem c9_amended_descriptor (i : ConfigInputs) :
    (saveConfigContent i).s3key = none ∧
    (saveConfigContent i).lambda = (formatResult i).lambda ∧
    (saveConfigContent i).api =
      (formatResult i).api.map (fun a => PersistedApiSection.mk a.id a.apiModule) ∧
    (saveConfigContent i).lambda.name = i.functionName ∧
    (saveConfigContent i).lambda.role = i.roleName ∧
    (saveConfigContent i).lambda.region = getS i.region ∧
    (saveConfigContent i).lambda.sharedRole = truthyS i.optRole ∧
    (truthyS i.s3Key = true → (formatResult i).s3key = i.s3Key) := by
  refine ⟨rfl, rfl, rfl, rfl, rfl, rfl, rfl, ?_⟩
  intro h; simp [formatResult, h]

/-- Witness for the amended C9 at a deployment with a gateway and a
produced storage key. -/
theorem c9_amended_descriptor_witness :
    (saveConfigContent (ConfigInputs.mk "my-fn-role" (some "us-east-1") none
        "my-fn" (some (LambdaApiInfo.mk "api1" "web" "https://u")) (some "uploads/my-fn.zip"))).s3key = none ∧
    (formatResult (ConfigInputs.mk "my-fn-role" (some "us-east-1") none
        "my-fn" (some (LambdaApiInfo.mk "api1" "web" "https://u")) (some "uploads/my-fn.zip"))).s3key =
      some "uploads/my-fn.zip" ∧
    (saveConfigContent (ConfigInputs.mk "my-fn-role" (some "us-east-1") none
        "my-fn" (some (LambdaApiInfo.mk "api1" "web" "https://u")) (some "uploads/my-fn.zip"))).api =
      some (PersistedApiSection.mk "api1" "web") := by
  have h := c9_amended_descriptor (ConfigInputs.mk "my-fn-role" (some "us-east-1") none
    "my-fn" (some (LambdaApiInfo.mk "api1" "web" "https://u")) (some "uploads/my-fn.zip"))
  exact ⟨h.1, h.2.2.2.2.2.2.2 (by decide), h.2.2.1⟩

/-- An option value that the claim calls unusable evaluates, through
`v && parseInt(v, 10)`, to a falsy number operand (`undefined`, `NaN` or
`0`). -/
theorem jsOptionNum_of_unusable {o : Option String} (h : unusableNumOption o) :
    jsOptionNum o = none ∨ jsOptionNum o = some 0 := by
  rcases h with h | h | ⟨s, hs, hp⟩
  · left; simp [jsOptionNum, h]
  · right; rw [h]; decide
  · subst hs
    left
    by_cases hse : s = "" <;> simp [jsOptionNum, hse, hp]

/-- A falsy left operand of `||` yields the default. -/
theorem jsOrNum_of_falsy {v : Option Int} (h : v = none ∨ v = some 0)
    (d : Int) : jsOrNum v d = d := by
  rcases h with h | h <;> simp [h, jsOrNum]

/-- The `||` chain never produces `0` when its default is non-zero. -/
theorem jsOrNum_ne_zero (v : Option Int) {d : Int} (hd : d ≠ 0) :
    jsOrNum v d ≠ 0 := by
  cases v with
  | none => simpa [jsOrNum] using hd
  | some n =>
    by_cases hn : n = 0 <;> simp [jsOrNum, hn, hd]

/-- C10: when the `aws-delay` option and the `AWS_DELAY` environment
variable are both absent, the string `0`, or unparseable, the retry delay
is 5000 ms; when `aws-retries` is absent, `0`, or unparseable, the
attempt cap is 5; and neither value can ever be selected as zero through
these options. -/
theorem c10_retry_defaults (optD envD optR : Option String)
    (h1 : unusableNumOption optD) (h2 : unusableNumOption envD)
    (h3 : unusableNumOption optR) :
    awsDelay optD envD = 5000 ∧ awsRetries optR = 5 ∧
    (∀ o e r : Option String, awsDelay o e ≠ 0 ∧ awsRetries r ≠ 0) := by
  refine ⟨?_, ?_, ?_⟩
  · unfold awsDelay
    rw [jsOrNum_of_falsy (jsOptionNum_of_unusable h1)]
    exact jsOrNum_of_falsy (jsOptionNum_of_unusable h2) 5000
  · exact jsOrNum_of_falsy (jsOptionNum_of_unusable h3) 5
  · intro o e r
    exact ⟨jsOrNum_ne_zero _ (jsOrNum_ne_zero _ (by norm_num)),
      jsOrNum_ne_zero _ (by norm_num)⟩

/-- Witness for C10: an absent option, an unparseable environment value
and the literal `0` for the retries option produce the 5000 ms delay and
the attempt cap of 5. -/
theorem c10_retry_defaults_witness :
    awsDelay none (some "abc") = 5000 ∧ awsRetries (some "0") = 5 := by
  have h := c10_retry_defaults none (some "abc") (some "0")
    (Or.inl rfl) (Or.inr (Or.inr ⟨"abc", rfl, by decide⟩)) (Or.inr (Or.inl rfl))
  exact ⟨h.1, h.2.1⟩

/-- The retry loop always invokes the operation at least once past the
current attempt index. -/
theorem retryGo_attempts_ge {E A : Type} (op : Nat → Except E A)
    (pred : E → Bool) :
    ∀ (fuel attempt : Nat), attempt + 1 ≤ (retryGo op pred fuel attempt).2 := by
  intro fuel
  induction fuel with
  | zero =>
    intro attempt
    cases h : op attempt <;> simp [retryGo, h]
  | succ f ih =>
    intro attempt
    cases h : op attempt with
    | ok a => simp [retryGo, h]
    | error e =>
      by_cases hp : pred e
      · have := ih (attempt + 1)
        simp only [retryGo, h, hp, if_true]
        omega
      · simp [retryGo, h, hp]

/-- C2: inside the create pipeline's function-creation step, an error is
re-attempted exactly when its classification code is
`InvalidParameterValueException`: any other rejection (including a null
rejection) is terminal after the single attempt and is propagated
unchanged, while a matching error with attempts remaining triggers at
least a second invocation of the operation. -/
theorem c2_retry_classification {A : Type} (op : Nat → Except (Option AwsError) A)
    (delayMs : Int) (maxAttempts : Nat) (e : Option AwsError)
    (h0 : op 0 = Except.error e) :
    (createLambdaRetryPred e = false →
      createLambdaRun op delayMs maxAttempts = (Except.error e, 1)) ∧
    (createLambdaRetryPred e = true → 2 ≤ maxAttempts →
      2 ≤ (createLambdaRun op delayMs maxAttempts).2) ∧
    (∀ err : AwsError,
      createLambdaRetryPred (some err) = true ↔
        err.code = "InvalidParameterValueException") ∧
    createLambdaRetryPred none = false := by
  refine ⟨?_, ?_, ?_, rfl⟩
  · intro hpred
    cases hM : maxAttempts - 1 with
    | zero => simp [createLambdaRun, retry, hM, retryGo, h0]
    | succ f => simp [createLambdaRun, retry, hM, retryGo, h0, hpred]
  · intro hpred hM
    have hf : maxAttempts - 1 = (maxAttempts - 2) + 1 := by omega
    have : createLambdaRun op delayMs maxAttempts =
        retryGo op createLambdaRetryPred (maxAttempts - 2) 1 := by
      simp [createLambdaRun, retry, hf, retryGo, h0, hpred]
    rw [this]
    exact retryGo_attempts_ge op createLambdaRetryPred (maxAttempts - 2) 1
  · intro err
    simp [createLambdaRetryPred]

/-- Witness for C2: a non-matching error code is propagated unchanged
after one attempt, and a matching error code leads to a second attempt. -/
theorem c2_retry_classification_witness :
    createLambdaRun (fun _ => (Except.error (some (AwsError.mk "AccessDenied")) :
        Except (Option AwsError) Nat)) 5000 5 =
      (Except.error (some (AwsError.mk "AccessDenied")), 1) ∧
    2 ≤ (createLambdaRun (fun _ =>
        (Except.error (some (AwsError.mk "InvalidParameterValueException")) :
          Except (Option AwsError) Nat)) 5000 5).2 := by
  refine ⟨?_, ?_⟩
  · exact (c2_retry_classification (fun _ => Except.error (some (AwsError.mk "AccessDenied")))
      5000 5 (some (AwsError.mk "AccessDenied")) rfl).1 (by decide)
  · exact (c2_retry_classification
      (fun _ => Except.error (some (AwsError.mk "InvalidParameterValueException")))
      5000 5 (some (AwsError.mk "InvalidParameterValueException")) rfl).2.1
      (by decide) (by norm_num)

/-- Supplying both a handler and an api-module makes `validationError`
produce a message: either the region message (when the region is also
missing) or the dedicated conflict message. -/
theorem validationError_of_conflict (o : CreateOptions) (fs : FsEnv)
    (hh : truthyS o.handler = true) (ha : truthyS o.apiModule = true) :
    validationError o fs = some "AWS region 参数未定义，请使用 --region 定义该参数值\n" ∨
    validationError o fs = some "不能同时使用 handler 和 api-module 两个参数\n" := by
  cases hr : truthyS o.region with
  | false => left; simp [validationError, hr]
  | true => right; simp [validationError, hr, hh, ha]

/-- C4: whenever both the handler and the api-module option are supplied,
the create command rejects with a validation message before doing any
work: no remote call is issued, no staging directory is created, and the
trace is exactly the empty trace. -/
theorem c4_conflict_rejected_early (o : CreateOptions) (fs : FsEnv)
    (env : StepOutcomes) (hh : truthyS o.handler = true)
    (ha : truthyS o.apiModule = true) :
    ∃ m, validationError o fs = some m ∧
      create o fs env = (Except.error m, emptyTrace) ∧
      (create o fs env).2.remoteCalls = [] ∧
      (create o fs env).2.stagingDirCreated = false := by
  rcases validationError_of_conflict o fs hh ha with h | h <;>
    exact ⟨_, h, by simp [create, h], by simp [create, h, emptyTrace],
      by simp [create, h, emptyTrace]⟩

/-- Witness for C4 at a concrete options object supplying both
`--handler a.b` and `--api-module web`. -/
theorem c4_conflict_rejected_early_witness :
    ∃ m, validationError
        (CreateOptions.mk (some "us-east-1") (some "a.b") (some "web") false
          none none none none none none none false none none false)
        (FsEnv.mk true false true true false) = some m ∧
      create
          (CreateOptions.mk (some "us-east-1") (some "a.b") (some "web") false
            none none none none none none none false none none false)
          (FsEnv.mk true false true true false)
          (StepOutcomes.mk true true true true true true true true true true
            true true true true true true) = (Except.error m, emptyTrace) ∧
      (create
          (CreateOptions.mk (some "us-east-1") (some "a.b") (some "web") false
            none none none none none none none false none none false)
          (FsEnv.mk true false true true false)
          (StepOutcomes.mk true true true true true true true true true true
            true true true true true true)).2.remoteCalls = [] ∧
      (create
          (CreateOptions.mk (some "us-east-1") (some "a.b") (some "web") false
            none none none none none none none false none none false)
          (FsEnv.mk true false true true false)
          (StepOutcomes.mk true true true true true true true true true true
            true true true true true true)).2.stagingDirCreated = false :=
  c4_conflict_rejected_early _ _ _ (by decide) (by decide)

/-- Cleanup bookkeeping of the post-validation chain: starting from a
trace on which cleanup has not yet acted, the chain's result runs cleanup
exactly on fulfillment, removing the staging artifacts exactly when
retention was not requested and retaining the archive exactly when it
was. -/
theorem runPipeline_cleanup_iff_ok (o : CreateOptions) (fs : FsEnv)
    (env : StepOutcomes) :
    ∀ (l : List Step) (t : RunTrace),
      t.cleanupRan = false → t.stagingRemoved = false → t.archiveKept = false →
      ((runPipeline o fs env l t).2.cleanupRan =
          isOkE (runPipeline o fs env l t).1 ∧
        (runPipeline o fs env l t).2.stagingRemoved =
          (isOkE (runPipeline o fs env l t).1 && !o.keep) ∧
        (runPipeline o fs env l t).2.archiveKept =
          (isOkE (runPipeline o fs env l t).1 && o.keep)) := by
  intro l
  induction l with
  | nil =>
    intro t h1 h2 h3
    by_cases hk : o.keep <;>
      simp [runPipeline, cleanupStep, isOkE, hk, h1, h2, h3]
  | cons s rest ih =>
    intro t h1 h2 h3
    by_cases hs : (stepRun o fs env s).1
    · have happ : ∀ calls, (applyStep t s calls).cleanupRan = false ∧
          (applyStep t s calls).stagingRemoved = false ∧
          (applyStep t s calls).archiveKept = false := by
        intro calls; exact ⟨h1, h2, h3⟩
      have := ih (applyStep t s (stepRun o fs env s).2)
        (happ _).1 (happ _).2.1 (happ _).2.2
      simpa [runPipeline, hs] using this
    · simp [runPipeline, hs, isOkE, h1, h2, h3]

/-- C1 amended: the cleanup step executes exactly on the success path of
the create command — a fulfilled run always ends in cleanup, which
removes the staging directory and archive unless retention was
requested and reports the retained archive otherwise, while every
rejected run (validation failure or any later step failure) ends without
cleanup having run. -/
theorem c1_amended_cleanup_on_success_only (o : CreateOptions) (fs : FsEnv)
    (env : StepOutcomes) :
    (create o fs env).2.cleanupRan = isOkE (create o fs env).1 ∧
    (create o fs env).2.stagingRemoved =
      (isOkE (create o fs env).1 && !o.keep) ∧
    (create o fs env).2.archiveKept =
      (isOkE (create o fs env).1 && o.keep) := by
  unfold create
  cases hv : validationError o fs with
  | none => exact runPipeline_cleanup_iff_ok o fs env pipelineSteps emptyTrace rfl rfl rfl
  | some m => simp [isOkE, emptyTrace]

/-- C1 counterexample: a concrete invocation that passes input validation
and then fails at the archiving step ends with the staging directory
created but cleanup never executed — refuting the claim that cleanup runs
on every failure path of the pipeline. -/
theorem c1_counterexample :
    validationError
        (CreateOptions.mk (some "us-east-1") (some "index.handler") none false
          none none none none none none none false none none false)
        (FsEnv.mk true false true true false) = none ∧
    isOkE (create
        (CreateOptions.mk (some "us-east-1") (some "index.handler") none false
          none none none none none none none false none none false)
        (FsEnv.mk true false true true false)
        (StepOutcomes.mk true true true true true true true false true true
          true true true true true true)).1 = false ∧
    (create
        (CreateOptions.mk (some "us-east-1") (some "index.handler") none false
          none none none none none none none false none none false)
        (FsEnv.mk true false true true false)
        (StepOutcomes.mk true true true true true true true false true true
          true true true true true true)).2.stagingDirCreated = true ∧
    (create
        (CreateOptions.mk (some "us-east-1") (some "index.handler") none false
          none none none none none none none false none none false)
        (FsEnv.mk true false true true false)
        (StepOutcomes.mk true true true true true true true false true true
          true true true true true true)).2.cleanupRan = false ∧
    (create
        (CreateOptions.mk (some "us-east-1") (some "index.handler") none false
          none none none none none none none false none none false)
        (FsEnv.mk true false true true false)
        (StepOutcomes.mk true true true true true true true false true true
          true true true true true true)).2.stagingRemoved = false := by
  refine ⟨by decide, by decide, by decide, by decide, by decide⟩

end Deploy
